import Mathlib

/-!
Verification of the webhook delivery subsystem of the url-shortener service.

The embedding follows the Python sources:
- `src/deps/external_webhook_sender.py`: a process-wide FIFO queue of pending
  webhooks (`asyncio.Queue()`, unbounded), a `BoundedSemaphore(5)` permit pool,
  `ExternalWebhookSender.enqueue` (queue put + schedule `spawn_worker` as a
  background task) and `spawn_worker` (try-acquire one permit with a 0.01 s
  timeout, then loop: dequeue with a 1.0 s timeout, POST the webhook body to
  its url, log non-200 statuses and exceptions, exit and release the permit
  when the dequeue times out).
- `src/deps/webhook_sender.py`: the lifecycle-event producer
  (`link_created` / `link_updated` / `link_deleted` / `link_clicked`) that
  looks the owner up in the webhook registry table and, when a url is
  registered, POSTs one envelope to the webhook service.
- `src/controllers/webhook_service.py`: the `/send` endpoint that parses the
  envelope and enqueues it.
- `src/controllers/url.py`: `create_url`, which inserts the row and invokes
  `link_created`.

Concurrency is embedded as a labelled transition system on an explicit state
(queue contents, free permits, live workers, pending background tasks), with
ghost fields recording every enqueued and every delivered webhook in order.
Pure request/response code is embedded as total functions; the network is an
oracle (`DeliveryOutcome`) chosen per delivery attempt.
-/

/-- Flat JSON object with string values, the shape of every body built by
`WebhookSender` (`action` / `key` / `target` / `new_target` fields). -/
abbrev EventBody := List (String × String)

/-- Model of the `Webhook` pydantic model of `external_webhook_sender.py`:
a destination url and the JSON body to deliver. -/
structure Webhook where
  url : String
  body : EventBody
deriving DecidableEq, Repr

/-- Outcome of one outbound HTTP POST, chosen by the environment: either a
response with a status code, or a raised transport exception. -/
inductive DeliveryOutcome where
  | response (status : Nat)
  | exception (msg : String)
deriving DecidableEq, Repr

/-- Timeout, in seconds, of the permit try-acquire in `spawn_worker`
(`wait_for(worker_permits.acquire(), 0.01)`). -/
def spawnAcquireTimeoutSec : ℚ := 1 / 100

/-- Timeout, in seconds, of the dequeue in the worker loop
(`wait_for(queue.get(), 1.0)`). -/
def workerIdleTimeoutSec : ℚ := 1

/-- Capacity of the permit pool (`BoundedSemaphore(5)`). -/
def permitCapacity : Nat := 5

/-- Warning logged by the worker when the POST returns a non-200 status
(`logger.warning` in `spawn_worker`). -/
def statusWarning (url : String) (status : Nat) : String :=
  "failed to send webhook to " ++ url ++ " with status code " ++ toString status

/-- Warning logged by the worker when the POST raises
(`logger.warning` in the except-clause of `spawn_worker`). -/
def exceptionWarning (msg : String) : String :=
  "failed to send webhook: " ++ msg

/-- One delivery attempt of the worker loop: POST `w.body` to `w.url`, then
the `if response.status != 200` check and the catch-all except-clause, both of
which only log. Returns the warnings logged; total, so no outcome escapes. -/
def deliver (w : Webhook) (o : DeliveryOutcome) : List String :=
  match o with
  | .response s => if s != 200 then [statusWarning w.url s] else []
  | .exception e => [exceptionWarning e]

/-- State of the external webhook sender: the shared queue, the free permits
of the `BoundedSemaphore(5)`, the number of live workers (each holding one
permit), the number of `spawn_worker` background tasks scheduled but not yet
run, plus ghost history: every webhook ever enqueued and every webhook handed
to a delivery attempt, in order, and the accumulated warning log. -/
structure SenderState where
  queue : List Webhook
  freePermits : Nat
  workers : Nat
  pendingSpawns : Nat
  enqueued : List Webhook
  sent : List Webhook
  logs : List String
deriving DecidableEq, Repr

/-- Initial state: empty queue, all 5 permits free, no workers. -/
def initState : SenderState :=
  { queue := [], freePermits := permitCapacity, workers := 0,
    pendingSpawns := 0, enqueued := [], sent := [], logs := [] }

/-- Transition labels of the sender. -/
inductive SenderLabel where
  | enqueue (w : Webhook)
  | spawnSuccess
  | spawnFail
  | deliverNext (o : DeliveryOutcome)
  | idleExit
deriving DecidableEq, Repr

/-- Model of `ExternalWebhookSender.enqueue`: `queue.put` appends to the tail
(the queue is unbounded, so put never blocks) and
`background_tasks.add_task(self.spawn_worker)` schedules one spawn attempt.
Total: defined in every state, for every webhook. -/
def enqueueStep (s : SenderState) (w : Webhook) : SenderState :=
  { s with queue := s.queue ++ [w],
           enqueued := s.enqueued ++ [w],
           pendingSpawns := s.pendingSpawns + 1 }

/-- Labelled transition relation of the external webhook sender.
`enqueue` is always enabled. A scheduled `spawn_worker` either acquires a
permit within the 0.01 s window and becomes a worker (`spawnSuccess`), or the
`wait_for` times out and it returns (`spawnFail`). A live worker either
dequeues the head and runs one delivery attempt (`deliverNext`), or its 1.0 s
dequeue times out on an empty queue and it exits the loop, releasing its
permit in the `finally` block (`idleExit`). -/
inductive SenderStep : SenderState → SenderLabel → SenderState → Prop where
  | enqueue (s : SenderState) (w : Webhook) :
      SenderStep s (.enqueue w) (enqueueStep s w)
  | spawnSuccess (s : SenderState)
      (hp : 0 < s.pendingSpawns) (ha : 0 < s.freePermits) :
      SenderStep s .spawnSuccess
        { s with pendingSpawns := s.pendingSpawns - 1,
                 freePermits := s.freePermits - 1,
                 workers := s.workers + 1 }
  | spawnFail (s : SenderState) (hp : 0 < s.pendingSpawns) :
      SenderStep s .spawnFail
        { s with pendingSpawns := s.pendingSpawns - 1 }
  | deliverNext (s : SenderState) (w : Webhook) (rest : List Webhook)
      (o : DeliveryOutcome) (hw : 0 < s.workers) (hq : s.queue = w :: rest) :
      SenderStep s (.deliverNext o)
        { s with queue := rest,
                 sent := s.sent ++ [w],
                 logs := s.logs ++ deliver w o }
  | idleExit (s : SenderState) (hw : 0 < s.workers) (hq : s.queue = []) :
      SenderStep s .idleExit
        { s with workers := s.workers - 1,
                 freePermits := s.freePermits + 1 }

/-- Reachability from the initial state. -/
inductive Reachable : SenderState → Prop where
  | init : Reachable initState
  | step (s s' : SenderState) (l : SenderLabel)
      (hr : Reachable s) (hs : SenderStep s l s') : Reachable s'

/-- Some step with any label. -/
def SenderStepAny (s s' : SenderState) : Prop :=
  ∃ l, SenderStep s l s'

/-- Finitely many steps. -/
def SenderSteps : SenderState → SenderState → Prop :=
  Relation.ReflTransGen SenderStepAny

/-- One worker draining a list of queue items, one delivery attempt per item,
with the outcome of the i-th attempt supplied by the environment; returns the
webhooks handed to delivery attempts, in order, and the warnings logged.
Delivery outcomes are ignored for control flow, exactly as in the loop body of
`spawn_worker`. -/
def workerRun : List Webhook → List DeliveryOutcome → List Webhook × List String
  | [], _ => ([], [])
  | w :: ws, os =>
    let r := workerRun ws os.tail
    (w :: r.1, deliver w (os.headD (.response 200)) ++ r.2)

/-- Registry lookup: `session.get_one(Webhook, user)` on the webhook table,
`none` when `NoResultFound` is raised. -/
abbrev Registry := String → Option String

/-- Model of the `Url` ORM row: owner, key and target. -/
structure UrlRow where
  owner : String
  key : String
  target : String
deriving DecidableEq, Repr

/-- Envelope POSTed by `WebhookSender._send` to the webhook service:
`json=\x7b"url": webhook.url, "body": body\x7d`. -/
structure ServiceEnvelope where
  url : String
  body : EventBody
deriving DecidableEq, Repr

/-- An outbound HTTP POST: destination and JSON body. -/
structure ServicePost where
  dest : String
  envelope : ServiceEnvelope
deriving DecidableEq, Repr

/-- Error logged by `WebhookSender._send` on a non-200 status. -/
def sendStatusError (host : String) (status : Nat) : String :=
  "failed to send webhook to " ++ host ++ " with status code " ++ toString status

/-- Error logged by `WebhookSender._send` when the POST raises. -/
def sendExceptionError (msg : String) : String :=
  "failed to send webhook: " ++ msg

/-- Model of `WebhookSender._send`: look the user up in the webhook table; on
`NoResultFound` return with no POST; otherwise POST one envelope to
`webhook_host + "/send"`, logging (only) a non-200 status or an exception.
Returns the POSTs made and the errors logged; total, so nothing propagates to
the caller. -/
def wsSend (registry : Registry) (host : String) (user : String)
    (body : EventBody) (o : DeliveryOutcome) : List ServicePost × List String :=
  match registry user with
  | none => ([], [])
  | some whUrl =>
    ([⟨host ++ "/send", ⟨whUrl, body⟩⟩],
     match o with
     | .response s => if s != 200 then [sendStatusError host s] else []
     | .exception e => [sendExceptionError e])

/-- Body built by `WebhookSender.link_created`. -/
def linkCreatedBody (url : UrlRow) : EventBody :=
  [("action", "created"), ("key", url.key), ("target", url.target)]

/-- Body built by `WebhookSender.link_deleted`. -/
def linkDeletedBody (url : UrlRow) : EventBody :=
  [("action", "deleted"), ("key", url.key), ("target", url.target)]

/-- Body built by `WebhookSender.link_updated`: note the source sends
`action: "deleted"` with a `new_target` field. -/
def linkUpdatedBody (url : UrlRow) : EventBody :=
  [("action", "deleted"), ("key", url.key), ("new_target", url.target)]

/-- Body built by `WebhookSender.link_clicked`. -/
def linkClickedBody (url : UrlRow) : EventBody :=
  [("action", "redirect"), ("key", url.key)]

/-- Model of `WebhookSender.link_created`. -/
def link_created (registry : Registry) (host : String) (url : UrlRow)
    (o : DeliveryOutcome) : List ServicePost × List String :=
  wsSend registry host url.owner (linkCreatedBody url) o

/-- Model of `WebhookSender.link_deleted`. -/
def link_deleted (registry : Registry) (host : String) (url : UrlRow)
    (o : DeliveryOutcome) : List ServicePost × List String :=
  wsSend registry host url.owner (linkDeletedBody url) o

/-- Model of `WebhookSender.link_updated`. -/
def link_updated (registry : Registry) (host : String) (url : UrlRow)
    (o : DeliveryOutcome) : List ServicePost × List String :=
  wsSend registry host url.owner (linkUpdatedBody url) o

/-- Model of `WebhookSender.link_clicked`. -/
def link_clicked (registry : Registry) (host : String) (url : UrlRow)
    (o : DeliveryOutcome) : List ServicePost × List String :=
  wsSend registry host url.owner (linkClickedBody url) o

/-- Model of the `/send` endpoint of the webhook service
(`controllers/webhook_service.py`): parse the envelope into a `Webhook`
and enqueue it. -/
def sendEndpoint (e : ServiceEnvelope) : Webhook :=
  ⟨e.url, e.body⟩

/-- End-to-end delivery pipeline for one lifecycle event: the POSTs the
producer makes to the webhook service, each enqueued by `/send`, then drained
by a single worker; returns the webhooks actually handed to outbound POSTs,
in order. -/
def eventDeliveries (posts : List ServicePost)
    (outcomes : List DeliveryOutcome) : List Webhook :=
  (workerRun (posts.map (fun p => sendEndpoint p.envelope)) outcomes).1

/-- Model of `create_url` in `controllers/url.py`: build the row from the JWT
subject and the request body, insert it, invoke `link_created`, and answer
201 with the object or 409 on a duplicate key (`IntegrityError`). The insert
is only flushed at commit, after `link_created` has already run, so the
producer POSTs are made in both branches. Returns the HTTP response (`Except`
status-code) together with the POSTs made and the errors logged. -/
def create_url (registry : Registry) (host : String) (sub : String)
    (key target : String) (dupKey : Bool) (o : DeliveryOutcome) :
    Except Nat UrlRow × (List ServicePost × List String) :=
  let row : UrlRow := ⟨sub, key, target⟩
  let send := link_created registry host row o
  if dupKey then (.error 409, send) else (.ok row, send)

/-- Sample webhook used to instantiate hypotheses at concrete inputs. -/
def w0 : Webhook :=
  ⟨"https://hook.example/x",
   [("action", "created"), ("key", "test"), ("target", "https://example.com")]⟩

lemma permits_accounting (s : SenderState) (h : Reachable s) :
    s.workers + s.freePermits = permitCapacity := by
  induction h with
  | init => rfl
  | step s s' l hr hs ih =>
    cases hs with
    | enqueue w => simpa [enqueueStep] using ih
    | spawnSuccess hp ha =>
      show s.workers + 1 + (s.freePermits - 1) = permitCapacity
      omega
    | spawnFail hp => exact ih
    | deliverNext w rest o hw hq => exact ih
    | idleExit hw hq =>
      show s.workers - 1 + (s.freePermits + 1) = permitCapacity
      omega

lemma queue_accounting (s : SenderState) (h : Reachable s) :
    s.enqueued = s.sent ++ s.queue := by
  induction h with
  | init => rfl
  | step s s' l hr hs ih =>
    cases hs with
    | enqueue w =>
      show s.enqueued ++ [w] = s.sent ++ (s.queue ++ [w])
      rw [ih, List.append_assoc]
    | spawnSuccess hp ha => exact ih
    | spawnFail hp => exact ih
    | deliverNext w rest o hw hq =>
      show s.enqueued = s.sent ++ [w] ++ rest
      rw [ih, hq, List.append_assoc]
      rfl
    | idleExit hw hq => exact ih

/-- C1: in every reachable state of the sender at most 5 workers are live,
whatever was enqueued and in whatever order; the accounting equality states
that each live worker holds exactly one of the 5 permits for its entire
lifetime (`spawnSuccess` is the only transition that takes a permit and it
creates the worker; `idleExit` is the only one that returns a permit and it
retires the worker). -/
theorem at_most_five_workers (s : SenderState) (h : Reachable s) :
    s.workers ≤ 5 ∧ s.workers + s.freePermits = permitCapacity := by
  have hacc := permits_accounting s h
  refine ⟨?_, hacc⟩
  have : permitCapacity = 5 := rfl
  omega

/-- C1 witness: the invariant holds at the state reached by one enqueue. -/
theorem at_most_five_workers_witness :
    (enqueueStep initState w0).workers ≤ 5 ∧
    (enqueueStep initState w0).workers + (enqueueStep initState w0).freePermits
      = permitCapacity :=
  at_most_five_workers (enqueueStep initState w0)
    (Reachable.step initState (enqueueStep initState w0) (.enqueue w0)
      Reachable.init (SenderStep.enqueue initState w0))

/-- C2: in every reachable state the full enqueue history equals the delivery
history followed by the current queue contents, hence every enqueued webhook
is either still queued or was handed to exactly one delivery attempt, nothing
is duplicated or dropped, the multiset counts balance, and the delivery
history is a prefix of the enqueue history: a single worker draining the queue
delivers in exactly enqueue (FIFO) order. -/
theorem fifo_no_loss_no_dup (s : SenderState) (h : Reachable s) :
    s.enqueued = s.sent ++ s.queue ∧
    (∀ w, s.enqueued.count w = s.sent.count w + s.queue.count w) ∧
    ∃ rest, s.sent ++ rest = s.enqueued := by
  have hacc := queue_accounting s h
  exact ⟨hacc, fun w => by rw [hacc, List.count_append], s.queue, hacc.symm⟩

/-- C2 witness: the accounting equality at the state reached by one enqueue. -/
theorem fifo_no_loss_no_dup_witness :
    (enqueueStep initState w0).enqueued
      = (enqueueStep initState w0).sent ++ (enqueueStep initState w0).queue :=
  (fifo_no_loss_no_dup (enqueueStep initState w0)
    (Reachable.step initState (enqueueStep initState w0) (.enqueue w0)
      Reachable.init (SenderStep.enqueue initState w0))).1

lemma drain_to_sent (q : List Webhook) (w : Webhook) :
    ∀ s : SenderState, 0 < s.workers → s.queue = q ++ [w] →
      ∃ s', SenderSteps s s' ∧ w ∈ s'.sent := by
  induction q with
  | nil =>
    intro s hw hq
    refine ⟨_, Relation.ReflTransGen.single
      ⟨_, SenderStep.deliverNext s w [] (.response 200) hw hq⟩, ?_⟩
    exact List.mem_append_right _ (List.mem_singleton.mpr rfl)
  | cons x xs ih =>
    intro s hw hq
    obtain ⟨s', hsteps, hmem⟩ :=
      ih { s with queue := xs ++ [w],
                  sent := s.sent ++ [x],
                  logs := s.logs ++ deliver x (.response 200) } hw rfl
    exact ⟨s', Relation.ReflTransGen.head
      ⟨_, SenderStep.deliverNext s x (xs ++ [w]) (.response 200) hw hq⟩ hsteps, hmem⟩

/-- C3: `idleExit` (the worker's dequeue timing out on an empty queue) retires
the worker and returns its permit, and it is the only worker-exit transition;
consequently a reachable state with no live workers has all 5 permits free
(none stuck), and an enqueue from such a state can be followed by a successful
spawn and by delivery of the new item. -/
theorem idle_exit_releases_then_redeliver :
    (∀ s s' : SenderState, SenderStep s .idleExit s' →
      s'.workers + 1 = s.workers ∧ s'.freePermits = s.freePermits + 1) ∧
    (∀ s : SenderState, Reachable s → s.workers = 0 →
      s.freePermits = permitCapacity ∧
      ∀ w : Webhook, ∃ s', SenderSteps (enqueueStep s w) s' ∧ w ∈ s'.sent) := by
  constructor
  · intro s s' hstep
    cases hstep with
    | idleExit hw hq =>
      refine ⟨?_, rfl⟩
      show s.workers - 1 + 1 = s.workers
      omega
  · intro s hr hw0
    have hacc := permits_accounting s hr
    have hfree : s.freePermits = permitCapacity := by omega
    refine ⟨hfree, fun w => ?_⟩
    have hperm : 0 < (enqueueStep s w).freePermits := by
      show 0 < s.freePermits
      have : permitCapacity = 5 := rfl
      omega
    have hpend : 0 < (enqueueStep s w).pendingSpawns := Nat.succ_pos _
    obtain ⟨s', hsteps, hmem⟩ := drain_to_sent s.queue w
      { enqueueStep s w with
          pendingSpawns := (enqueueStep s w).pendingSpawns - 1,
          freePermits := (enqueueStep s w).freePermits - 1,
          workers := (enqueueStep s w).workers + 1 }
      (Nat.succ_pos _) rfl
    exact ⟨s', Relation.ReflTransGen.head
      ⟨_, SenderStep.spawnSuccess (enqueueStep s w) hpend hperm⟩ hsteps, hmem⟩

/-- C3 witness: from the initial state (no workers), enqueueing a webhook
leads, after finitely many steps, to a state where it has been delivered. -/
theorem idle_exit_releases_then_redeliver_witness :
    ∃ s', SenderSteps (enqueueStep initState w0) s' ∧ w0 ∈ s'.sent :=
  (idle_exit_releases_then_redeliver.2 initState Reachable.init rfl).2 w0

lemma workerRun_delivers_all (q : List Webhook) (os : List DeliveryOutcome) :
    (workerRun q os).1 = q := by
  induction q generalizing os with
  | nil => rfl
  | cons w ws ih => simpa [workerRun] using ih os.tail

/-- C4: delivery failures are contained. A single worker drains every queue
item exactly once and in order, whatever the response statuses or raised
exceptions (control flow is outcome-independent, so nothing is retried,
re-enqueued or skipped and no failure escapes — `deliver` and `wsSend` are
total, every outcome becomes at most a log line); and both the HTTP response
and the POSTs of `create_url` are independent of the delivery outcome. -/
theorem delivery_failures_contained (q : List Webhook)
    (os os' : List DeliveryOutcome) (registry : Registry)
    (host sub key target : String) (dup : Bool) (a b : DeliveryOutcome) :
    (workerRun q os).1 = q ∧
    (workerRun q os).1 = (workerRun q os').1 ∧
    (create_url registry host sub key target dup a).1
      = (create_url registry host sub key target dup b).1 ∧
    (create_url registry host sub key target dup a).2.1
      = (create_url registry host sub key target dup b).2.1 := by
  refine ⟨workerRun_delivers_all q os,
    (workerRun_delivers_all q os).trans (workerRun_delivers_all q os').symm,
    ?_, ?_⟩ <;>
  cases hreg : registry sub <;>
  cases dup <;>
  simp [create_url, link_created, wsSend, hreg]

/-- C5: the spawner try-acquires with a 0.01 s (10 ms) timeout; when the
acquire times out (in particular when all 5 permits are held) it just returns:
the queue, the permit pool, the worker count and the delivery history are all
untouched and no error is raised (`spawnFail` is a normal transition); when
the acquire succeeds the new worker holds exactly the permit taken, and by the
reachable-state accounting it keeps it until it exits. -/
theorem spawn_try_acquire (s s' : SenderState) :
    spawnAcquireTimeoutSec * 1000 = 10 ∧
    (SenderStep s .spawnFail s' →
      s'.queue = s.queue ∧ s'.freePermits = s.freePermits ∧
      s'.workers = s.workers ∧ s'.sent = s.sent) ∧
    (SenderStep s .spawnSuccess s' →
      s'.freePermits + 1 = s.freePermits ∧ s'.workers = s.workers + 1) := by
  refine ⟨by norm_num [spawnAcquireTimeoutSec], ?_, ?_⟩
  · intro hstep
    cases hstep with
    | spawnFail hp => exact ⟨rfl, rfl, rfl, rfl⟩
  · intro hstep
    cases hstep with
    | spawnSuccess hp ha =>
      refine ⟨?_, rfl⟩
      show s.freePermits - 1 + 1 = s.freePermits
      omega

/-- C5 witness: a concrete timed-out spawn attempt, after one enqueue from
the initial state, leaves queue, permits, workers and history unchanged. -/
theorem spawn_try_acquire_witness :
    ({ enqueueStep initState w0 with
        pendingSpawns := (enqueueStep initState w0).pendingSpawns - 1 }).queue
      = (enqueueStep initState w0).queue ∧
    ({ enqueueStep initState w0 with
        pendingSpawns := (enqueueStep initState w0).pendingSpawns - 1 }).freePermits
      = (enqueueStep initState w0).freePermits ∧
    ({ enqueueStep initState w0 with
        pendingSpawns := (enqueueStep initState w0).pendingSpawns - 1 }).workers
      = (enqueueStep initState w0).workers ∧
    ({ enqueueStep initState w0 with
        pendingSpawns := (enqueueStep initState w0).pendingSpawns - 1 }).sent
      = (enqueueStep initState w0).sent :=
  (spawn_try_acquire (enqueueStep initState w0) _).2.1
    (SenderStep.spawnFail (enqueueStep initState w0) (Nat.succ_pos _))

/-- C6: `enqueue` appends the webhook to the tail of the queue and is enabled
in every state for every webhook value — it is a total transition, so it never
blocks (the queue is unbounded) and never fails; it touches nothing but the
queue, the ghost history and the pending spawn counter. -/
theorem enqueue_appends_total (s : SenderState) (w : Webhook) :
    SenderStep s (.enqueue w) (enqueueStep s w) ∧
    (enqueueStep s w).queue = s.queue ++ [w] ∧
    (enqueueStep s w).freePermits = s.freePermits ∧
    (enqueueStep s w).workers = s.workers ∧
    (enqueueStep s w).sent = s.sent :=
  ⟨SenderStep.enqueue s w, rfl, rfl, rfl, rfl⟩

/-- C7 counterexample: status 201 is a 2xx status, yet the worker logs it as
a delivery failure — the source checks `response.status != 200`, so the
success classification is not "any 2xx". -/
theorem success_not_any_2xx :
    ¬ (deliver w0 (.response 201) = [] ↔ (200 ≤ 201 ∧ 201 < 300)) := by
  decide

/-- C7 (amended): the worker classifies a delivery as success exactly when
the response status equals 200; every other status, and every raised
exception, results only in one warning log line. -/
theorem delivery_success_iff_200 (w : Webhook) (s : Nat) (e : String) :
    (deliver w (.response s) = [] ↔ s = 200) ∧
    (deliver w (.response s) = [] ∨
      deliver w (.response s) = [statusWarning w.url s]) ∧
    deliver w (.exception e) = [exceptionWarning e] := by
  by_cases h : s = 200 <;> simp [deliver, h]

/-- Sample url row owned by a user with no registered webhook. -/
def bobRow : UrlRow := ⟨"bob", "test", "https://example.com"⟩

/-- C8: when the owner has no registered webhook url, every lifecycle event
(`link_created`, `link_updated`, `link_deleted`, `link_clicked`) returns
having built no envelope, made no POST and logged nothing — the
`NoResultFound` branch of `_send` returns, so no error reaches the caller —
and end-to-end no outbound POST is ever delivered. -/
theorem unregistered_user_no_posts (registry : Registry) (host : String)
    (url : UrlRow) (o : DeliveryOutcome) (h : registry url.owner = none) :
    link_created registry host url o = ([], []) ∧
    link_updated registry host url o = ([], []) ∧
    link_deleted registry host url o = ([], []) ∧
    link_clicked registry host url o = ([], []) ∧
    ∀ os, eventDeliveries (link_created registry host url o).1 os = [] := by
  simp [link_created, link_updated, link_deleted, link_clicked, wsSend, h,
    eventDeliveries, workerRun]

/-- C8 witness: with an empty registry, `bob` creating a link produces no
POST at all. -/
theorem unregistered_user_no_posts_witness :
    link_created (fun _ => none) "http://wh" bobRow (.response 200) = ([], []) :=
  (unregistered_user_no_posts (fun _ => none) "http://wh" bobRow
    (.response 200) rfl).1

/-- Registry with exactly one registration, for `alice`. -/
def aliceRegistry : Registry :=
  fun u => if u = "alice" then some "https://hook.example/x" else none

/-- C9: when the creating user has a registered webhook url, `create_url`
answers 201 with the object, makes exactly one POST to the webhook service,
and after the `/send` endpoint enqueues it and a worker drains the queue the
registered endpoint receives exactly one POST whose body is
`action = created, key, target`. -/
theorem created_link_one_delivery (registry : Registry)
    (host whUrl sub key target : String) (o : DeliveryOutcome)
    (os : List DeliveryOutcome) (h : registry sub = some whUrl) :
    (create_url registry host sub key target false o).1 = .ok ⟨sub, key, target⟩ ∧
    (create_url registry host sub key target false o).2.1
      = [⟨host ++ "/send",
          ⟨whUrl, [("action", "created"), ("key", key), ("target", target)]⟩⟩] ∧
    eventDeliveries (create_url registry host sub key target false o).2.1 os
      = [⟨whUrl, [("action", "created"), ("key", key), ("target", target)]⟩] := by
  simp [create_url, link_created, wsSend, h, linkCreatedBody, eventDeliveries,
    workerRun, sendEndpoint]

/-- C9 witness: the end-to-end scenario of the spec, with `alice` registered
at `https://hook.example/x` and creating `test -> https://example.com`. -/
theorem created_link_one_delivery_witness :
    eventDeliveries
      (create_url aliceRegistry "http://wh" "alice" "test"
        "https://example.com" false (.response 200)).2.1 []
      = [⟨"https://hook.example/x",
          [("action", "created"), ("key", "test"),
           ("target", "https://example.com")]⟩] :=
  (created_link_one_delivery aliceRegistry "http://wh" "https://hook.example/x"
    "alice" "test" "https://example.com" (.response 200) [] (by decide)).2.2

/-- C10: the body built for a link update carries `action = "deleted"` — the
same action value as a link deletion — together with a `new_target` field and
no `target` field, so the action field alone cannot distinguish the two
events. -/
theorem update_action_equals_delete_action (url : UrlRow) :
    List.lookup "action" (linkUpdatedBody url) = some "deleted" ∧
    List.lookup "action" (linkUpdatedBody url)
      = List.lookup "action" (linkDeletedBody url) ∧
    List.lookup "new_target" (linkUpdatedBody url) = some url.target ∧
    List.lookup "target" (linkUpdatedBody url) = none :=
  ⟨rfl, rfl, rfl, rfl⟩
